import Mathlib

/-!
Verification of the USB-HID-to-BLE bridge firmware core.

This file gives a shallow embedding, in Lean, of the bridge engine of the
firmware: the endpoint sync codec (src/APP/usb_host_common.c), the report
translator and poll loop (src/APP/usb_bridge.c), the device registry
(src/APP/usb_device_manager.c), and the error-recovery layer
(src/APP/error_recovery.c).  Machine integers are modelled as Nat with
explicit reductions where the C types overflow (uint8_t: mod 256,
uint16_t: mod 65536, uint32_t: mod 4294967296).  Buffers are lists of
bytes, read through List.getD as the C code reads raw memory.  Hardware
and transport results (USB transaction status, receive length, receive
buffer, BLE notify results, hot-plug edges) are inputs supplied by an
environment record, exactly at the points where the C code calls the
transport driver or the BLE stack.
-/

namespace UsbBridge

-- ===================================================================
-- Endpoint sync codec (src/APP/usb_host_common.c)
-- ===================================================================

/-- usb_host_common.h: `#define USB_ENDP_ADDR_MASK 0x7F` -/
def USB_ENDP_ADDR_MASK : Nat := 0x7F

/-- usb_host_common.h: `#define USB_ENDP_SYNC_MASK 0x80` -/
def USB_ENDP_SYNC_MASK : Nat := 0x80

/-- usb_host_common.c, Endpoint_GetAddr: `return endp_addr & USB_ENDP_ADDR_MASK;` -/
def Endpoint_GetAddr (endp_addr : Nat) : Nat :=
  endp_addr &&& USB_ENDP_ADDR_MASK

/-- usb_host_common.c, Endpoint_SyncToggle: `return endp_addr ^ USB_ENDP_SYNC_MASK;` -/
def Endpoint_SyncToggle (endp_addr : Nat) : Nat :=
  endp_addr ^^^ USB_ENDP_SYNC_MASK

/-- usb_host_common.c, Endpoint_SetToggle: clear bit 7 then set it from the argument. -/
def Endpoint_SetToggle (endp_addr toggle : Nat) : Nat :=
  if toggle ≠ 0 then (endp_addr &&& USB_ENDP_ADDR_MASK) ||| USB_ENDP_SYNC_MASK
  else endp_addr &&& USB_ENDP_ADDR_MASK

/-- usb_host_common.c, IsEndpointValid: `return (endp_addr & USB_ENDP_ADDR_MASK) != 0;` -/
def IsEndpointValid (endp_addr : Nat) : Bool :=
  (endp_addr &&& USB_ENDP_ADDR_MASK) != 0

/-- Whether bit 7 (the DATA0/DATA1 sync bit) of a token is set.
This is the value tested by Endpoint_GetToggle / Endpoint_GetToggleFlag in
usb_host_common.c (`endp_addr & USB_ENDP_SYNC_MASK`). -/
def Endpoint_ToggleBitSet (endp_addr : Nat) : Bool :=
  (endp_addr &&& USB_ENDP_SYNC_MASK) != 0

-- ===================================================================
-- Report translator: keyboard (src/APP/usb_bridge.c, Parse_Keyboard_Data)
-- ===================================================================

/-- usb_bridge.c: `#define NIZ_KEY_OFFSET 4` -/
def NIZ_KEY_OFFSET : Nat := 4

/-- Inner bit loop body of Parse_Keyboard_Data: for one byte index `i` and one
bit position `bit`, test the bit, compute the uint8_t keycode
`(i - 2) * 8 + bit + NIZ_KEY_OFFSET` (truncated mod 256 by the uint8_t store),
and fill output slot `2 + key_slot` when `keycode > 3 && keycode < 255 &&
key_slot < 6`.  State is the pair (out_buf, key_slot). -/
def kbdBitStep (in_buf : List Nat) (i : Nat) (st : List Nat × Nat) (bit : Nat) :
    List Nat × Nat :=
  if (in_buf.getD i 0 >>> bit) &&& 1 = 1 then
    let keycode := ((i - 2) * 8 + bit + NIZ_KEY_OFFSET) % 256
    if 3 < keycode ∧ keycode < 255 ∧ st.2 < 6 then
      (st.1.set (2 + st.2) keycode, st.2 + 1)
    else st
  else st

/-- Outer byte loop body of Parse_Keyboard_Data: `if (in_buf[i] != 0)` then scan
the eight bits of byte `i`. -/
def kbdByteStep (in_buf : List Nat) (st : List Nat × Nat) (i : Nat) :
    List Nat × Nat :=
  if in_buf.getD i 0 ≠ 0 then (List.range 8).foldl (kbdBitStep in_buf i) st
  else st

/-- usb_bridge.c, Parse_Keyboard_Data: zero the 8-byte output; length 8 is a
byte-for-byte copy; length > 8 copies byte 0 as the modifier mask and decodes
bytes 2..len-1 as an NKRO bitmap; any other length leaves the zero report. -/
def Parse_Keyboard_Data (in_buf : List Nat) (len : Nat) : List Nat :=
  if len = 8 then (List.range 8).map (fun j => in_buf.getD j 0)
  else if len > 8 then
    let st0 : List Nat × Nat := ((List.replicate 8 0).set 0 (in_buf.getD 0 0), 0)
    ((List.range' 2 (len - 2)).foldl (kbdByteStep in_buf) st0).1
  else List.replicate 8 0

-- Specification-side keyboard decode, written from the words of the claim
-- (spec.md section 4.3): keycode = (i-2)*8 + b + 4 with NO uint8_t
-- truncation, rejected when <= 3 or >= 255, filled in scan order, capped at 6.

/-- The keycode stream the claim describes: for each byte offset i >= 2 and bit
b in scan order, the untruncated candidate `(i-2)*8 + b + 4`, kept when it lies
strictly between 3 and 255. -/
def nkroKeycodesClaim (in_buf : List Nat) (len : Nat) : List Nat :=
  (List.range' 2 (len - 2)).flatMap (fun i =>
    (List.range 8).filterMap (fun b =>
      if (in_buf.getD i 0).testBit b then
        if 3 < (i - 2) * 8 + b + 4 ∧ (i - 2) * 8 + b + 4 < 255 then
          some ((i - 2) * 8 + b + 4)
        else none
      else none))

/-- Keyboard decode as the claim words it (see nkroKeycodesClaim). -/
def decodeKeyboardClaim (in_buf : List Nat) (len : Nat) : List Nat :=
  if len = 8 then (List.range 8).map (fun j => in_buf.getD j 0)
  else if len > 8 then
    let keys := (nkroKeycodesClaim in_buf len).take 6
    in_buf.getD 0 0 :: 0 :: (keys ++ List.replicate (6 - keys.length) 0)
  else List.replicate 8 0

/-- The keycode stream with the amendment the code forces: the keycode is the
uint8_t truncation `((i-2)*8 + b + 4) % 256`, and the range test is applied to
the truncated value. -/
def nkroKeycodesAmended (in_buf : List Nat) (len : Nat) : List Nat :=
  (List.range' 2 (len - 2)).flatMap (fun i =>
    (List.range 8).filterMap (fun b =>
      if (in_buf.getD i 0).testBit b then
        if 3 < ((i - 2) * 8 + b + 4) % 256 ∧ ((i - 2) * 8 + b + 4) % 256 < 255 then
          some (((i - 2) * 8 + b + 4) % 256)
        else none
      else none))

/-- Keyboard decode as amended: identical to decodeKeyboardClaim except that the
keycode is truncated to a byte before the range test. -/
def decodeKeyboardAmended (in_buf : List Nat) (len : Nat) : List Nat :=
  if len = 8 then (List.range 8).map (fun j => in_buf.getD j 0)
  else if len > 8 then
    let keys := (nkroKeycodesAmended in_buf len).take 6
    in_buf.getD 0 0 :: 0 :: (keys ++ List.replicate (6 - keys.length) 0)
  else List.replicate 8 0

/-- One accepted-or-rejected candidate of the bit scan, as the code computes it
(bit test via shift-and-mask, keycode truncated to uint8_t). -/
def kbdAccept (in_buf : List Nat) (i b : Nat) : Option Nat :=
  if (in_buf.getD i 0 >>> b) &&& 1 = 1 then
    if 3 < ((i - 2) * 8 + b + 4) % 256 ∧ ((i - 2) * 8 + b + 4) % 256 < 255 then
      some (((i - 2) * 8 + b + 4) % 256)
    else none
  else none

/-- Filling a list of accepted keycodes into output slots 2..7, starting at the
current slot counter, capped at 6 filled slots. -/
def placeKeys (st : List Nat × Nat) : List Nat → List Nat × Nat
  | [] => st
  | k :: ks =>
    if st.2 < 6 then placeKeys (st.1.set (2 + st.2) k, st.2 + 1) ks
    else placeKeys st ks

/-- A 35-byte NKRO report with a single set bit at byte offset 34, bit 0: the
untruncated keycode is 32*8 + 0 + 4 = 260, which the claim rejects (>= 255)
but the code truncates to the valid keycode 4. -/
def kbdCexBuf : List Nat := List.replicate 34 0 ++ [1]

-- ===================================================================
-- Report translator: mouse (src/APP/usb_bridge.c, USB_Bridge_ProcessDevice,
-- protocol adaptation branch for DEV_TYPE_MOUSE)
-- ===================================================================

/-- The mouse protocol adaptation of USB_Bridge_ProcessDevice, in the order the
C code tests the length: len == 5 drops a 1-byte report id; len >= 7 picks the
sparse layout bytes 1, 2, 4, 6; len == 3 is the boot layout with wheel 0;
len == 4 drops a leading id byte when raw[0] <= 5, else copies directly; every
other length leaves the zeroed report. -/
def decodeMouse (raw : List Nat) (len : Nat) : List Nat :=
  if len = 5 then [raw.getD 1 0, raw.getD 2 0, raw.getD 3 0, raw.getD 4 0]
  else if len ≥ 7 then [raw.getD 1 0, raw.getD 2 0, raw.getD 4 0, raw.getD 6 0]
  else if len = 3 then [raw.getD 0 0, raw.getD 1 0, raw.getD 2 0, 0]
  else if len = 4 then
    if raw.getD 0 0 ≤ 5 then [raw.getD 1 0, raw.getD 2 0, raw.getD 3 0, 0]
    else [raw.getD 0 0, raw.getD 1 0, raw.getD 2 0, raw.getD 3 0]
  else List.replicate 4 0

/-- Mouse decode as the claim words it, keyed in the order of the table in
spec.md section 4.3 (lengths 3, 4, 5, >= 7, other). -/
def decodeMouseClaim (raw : List Nat) (len : Nat) : List Nat :=
  if len = 3 then [raw.getD 0 0, raw.getD 1 0, raw.getD 2 0, 0]
  else if len = 4 then
    if raw.getD 0 0 ≤ 5 then [raw.getD 1 0, raw.getD 2 0, raw.getD 3 0, 0]
    else [raw.getD 0 0, raw.getD 1 0, raw.getD 2 0, raw.getD 3 0]
  else if len = 5 then [raw.getD 1 0, raw.getD 2 0, raw.getD 3 0, raw.getD 4 0]
  else if len ≥ 7 then [raw.getD 1 0, raw.getD 2 0, raw.getD 4 0, raw.getD 6 0]
  else List.replicate 4 0

-- ===================================================================
-- Device registry (src/APP/usb_device_manager.c)
-- ===================================================================

/-- usb_device_manager.h: `#define MAX_USB_DEVICES 4` -/
def MAX_USB_DEVICES : Nat := 4

/-- Device type constants as usb_bridge.c sees them (usb_host_common.h):
`#define DEV_TYPE_KEYBOARD 0`. -/
def DEV_TYPE_KEYBOARD : Nat := 0

/-- usb_host_common.h: `#define DEV_TYPE_MOUSE 1`. -/
def DEV_TYPE_MOUSE : Nat := 1

/-- usb_device_manager.h, UsbDevice_t: one registry slot.  The uint8_t flags
is_connected and is_valid are modelled as Bool (the code only tests them for
zero / nonzero), the byte fields as Nat, the 8-byte report buffer as a list. -/
structure UsbDevice where
  dev_addr : Nat
  dev_type : Nat
  endpoint : Nat
  sync_toggle : Nat
  report_buffer : List Nat
  is_connected : Bool
  is_valid : Bool
deriving DecidableEq

/-- An all-zero slot, as produced by `memset(&dev, 0, sizeof(UsbDevice_t))`
followed by clearing the two flags (UsbDeviceManager_RemoveDevice). -/
def emptyDevice : UsbDevice :=
  { dev_addr := 0, dev_type := 0, endpoint := 0, sync_toggle := 0,
    report_buffer := List.replicate 8 0, is_connected := false, is_valid := false }

/-- Reading g_usb_devices[i]: array indexing in the C code, modelled as getD
with the all-zero slot as the out-of-range default (the operations guard the
index before use, so the default is never observable). -/
def getDev (l : List UsbDevice) (i : Nat) : UsbDevice := l.getD i emptyDevice

/-- The registry globals of usb_device_manager.c: the 4-slot device array
g_usb_devices and the uint8_t counter g_active_device_count. -/
structure Manager where
  devices : List UsbDevice
  active : Nat
deriving DecidableEq

/-- usb_device_manager.c, UsbDeviceManager_Init: zero the array, zero the
counter, mark every slot invalid and disconnected. -/
def UsbDeviceManager_Init : Manager :=
  { devices := List.replicate 4 emptyDevice, active := 0 }

/-- The fully initialised slot UsbDeviceManager_AddDevice installs: address,
type and endpoint from the arguments, sync toggle DATA0, connected, valid,
report buffer cleared. -/
def newUsbDevice (dev_addr dev_type endpoint : Nat) : UsbDevice :=
  { dev_addr := dev_addr, dev_type := dev_type, endpoint := endpoint,
    sync_toggle := 0, report_buffer := List.replicate 8 0,
    is_connected := true, is_valid := true }

/-- The slot-search loop of UsbDeviceManager_AddDevice: walk the array, install
the device in the first slot whose is_valid flag is clear, and report the index
of that slot; none when every slot is occupied. -/
def addDeviceAux (d : UsbDevice) : List UsbDevice → Option (Nat × List UsbDevice)
  | [] => none
  | dev :: rest =>
    if dev.is_valid then
      (addDeviceAux d rest).map (fun p => (p.1 + 1, dev :: p.2))
    else some (0, d :: rest)

/-- usb_device_manager.c, UsbDeviceManager_AddDevice: first free slot gets the
new device and the uint8_t active counter is incremented; 0xFF when the table
is full. -/
def UsbDeviceManager_AddDevice (m : Manager) (dev_addr dev_type endpoint : Nat) :
    Nat × Manager :=
  match addDeviceAux (newUsbDevice dev_addr dev_type endpoint) m.devices with
  | some p => (p.1, { devices := p.2, active := (m.active + 1) % 256 })
  | none => (0xFF, m)

/-- usb_device_manager.c, UsbDeviceManager_RemoveDevice: out-of-range index
returns immediately; a valid slot is zeroed and the counter decremented when
positive; an invalid slot is untouched. -/
def UsbDeviceManager_RemoveDevice (m : Manager) (dev_index : Nat) : Manager :=
  if dev_index ≥ MAX_USB_DEVICES then m
  else if (getDev m.devices dev_index).is_valid then
    { devices := m.devices.set dev_index emptyDevice,
      active := if m.active > 0 then m.active - 1 else m.active }
  else m

/-- usb_device_manager.c, UsbDeviceManager_GetDevice: NULL (none) for an
out-of-range index or an invalid slot, else a view of the slot. -/
def UsbDeviceManager_GetDevice (m : Manager) (dev_index : Nat) : Option UsbDevice :=
  if dev_index ≥ MAX_USB_DEVICES then none
  else if (getDev m.devices dev_index).is_valid then
    some (getDev m.devices dev_index)
  else none

/-- usb_device_manager.c, UsbDeviceManager_FindDeviceByType: index of the first
valid slot of the requested type, 0xFF when absent. -/
def UsbDeviceManager_FindDeviceByType (m : Manager) (dev_type : Nat) : Nat :=
  match m.devices.findIdx? (fun d => d.is_valid && d.dev_type == dev_type) with
  | some i => i
  | none => 0xFF

/-- The slot as rewritten by UsbDeviceManager_UpdateSyncToggle: same record
with the sync_toggle field replaced. -/
def updatedToggleDev (d : UsbDevice) (toggle : Nat) : UsbDevice :=
  { d with sync_toggle := toggle }

/-- usb_device_manager.c, UsbDeviceManager_UpdateSyncToggle: write the sync
toggle of a valid in-range slot; otherwise do nothing. -/
def UsbDeviceManager_UpdateSyncToggle (m : Manager) (dev_index toggle : Nat) :
    Manager :=
  if dev_index ≥ MAX_USB_DEVICES then m
  else if (getDev m.devices dev_index).is_valid then
    { m with
      devices := m.devices.set dev_index
        (updatedToggleDev (getDev m.devices dev_index) toggle) }
  else m

/-- usb_device_manager.c, UsbDeviceManager_GetSyncToggle. -/
def UsbDeviceManager_GetSyncToggle (m : Manager) (dev_index : Nat) : Nat :=
  if dev_index ≥ MAX_USB_DEVICES then 0
  else (getDev m.devices dev_index).sync_toggle

/-- The slot as rewritten by UsbDeviceManager_UpdateReport: memcpy of the
first len report bytes over the 8-byte slot buffer. -/
def updatedReportDev (d : UsbDevice) (report : List Nat) (len : Nat) :
    UsbDevice :=
  { d with report_buffer := (List.range 8).map (fun j =>
      if j < len then report.getD j 0 else d.report_buffer.getD j 0) }

/-- usb_device_manager.c, UsbDeviceManager_UpdateReport: reject an out-of-range
index or a length over 8; on a valid slot, memcpy the first len bytes of the
report over the slot buffer, keeping the tail. -/
def UsbDeviceManager_UpdateReport (m : Manager) (dev_index : Nat)
    (report : List Nat) (len : Nat) : Manager :=
  if dev_index ≥ MAX_USB_DEVICES ∨ len > 8 then m
  else if (getDev m.devices dev_index).is_valid then
    { m with
      devices := m.devices.set dev_index
        (updatedReportDev (getDev m.devices dev_index) report len) }
  else m

/-- usb_device_manager.c, UsbDeviceManager_IsValid. -/
def UsbDeviceManager_IsValid (m : Manager) (dev_index : Nat) : Bool :=
  if dev_index ≥ MAX_USB_DEVICES then false
  else (getDev m.devices dev_index).is_valid

/-- usb_device_manager.c, UsbDeviceManager_GetActiveCount. -/
def UsbDeviceManager_GetActiveCount (m : Manager) : Nat := m.active

/-- Index of the first invalid slot (specification-side description of the slot
search in UsbDeviceManager_AddDevice). -/
def firstInvalidIdx : List UsbDevice → Option Nat
  | [] => none
  | dev :: rest =>
    if dev.is_valid then (firstInvalidIdx rest).map (· + 1) else some 0

/-- The registry invariant of the claims: the table has its four slots and the
active counter equals the number of slots whose valid flag is set. -/
def managerInv (m : Manager) : Prop :=
  m.devices.length = 4 ∧
  m.active = (m.devices.filter (fun d => d.is_valid)).length

-- ===================================================================
-- Error statistics (src/APP/error_recovery.c, ErrorStats_t / g_error_stats)
-- ===================================================================

/-- uint8_t increment. -/
def u8inc (x : Nat) : Nat := (x + 1) % 256

/-- uint32_t increment, as performed on the ErrorStats_t counters. -/
def u32inc (x : Nat) : Nat := (x + 1) % 4294967296

/-- error_recovery.c, ErrorStats_t: the twelve uint32_t event counters. -/
structure ErrorStats where
  usb_connect_count : Nat
  usb_disconnect_count : Nat
  usb_enum_fail_count : Nat
  usb_comm_fail_count : Nat
  ble_connect_count : Nat
  ble_disconnect_count : Nat
  ble_auth_fail_count : Nat
  ble_comm_fail_count : Nat
  watchdog_timeout_count : Nat
  reset_count : Nat
  usb_reconnect_retry : Nat
  ble_reconnect_retry : Nat
deriving DecidableEq

/-- error_recovery.c, ErrorStats_Init: memset the statistics block to zero. -/
def ErrorStats_Init : ErrorStats :=
  { usb_connect_count := 0, usb_disconnect_count := 0, usb_enum_fail_count := 0,
    usb_comm_fail_count := 0, ble_connect_count := 0, ble_disconnect_count := 0,
    ble_auth_fail_count := 0, ble_comm_fail_count := 0,
    watchdog_timeout_count := 0, reset_count := 0,
    usb_reconnect_retry := 0, ble_reconnect_retry := 0 }

/-- error_recovery.c, ErrorStats_USBConnect. -/
def ErrorStats_USBConnect (st : ErrorStats) : ErrorStats :=
  { st with usb_connect_count := u32inc st.usb_connect_count }

/-- error_recovery.c, ErrorStats_USBDisconnect. -/
def ErrorStats_USBDisconnect (st : ErrorStats) : ErrorStats :=
  { st with usb_disconnect_count := u32inc st.usb_disconnect_count }

/-- error_recovery.c, ErrorStats_USBCommFail. -/
def ErrorStats_USBCommFail (st : ErrorStats) : ErrorStats :=
  { st with usb_comm_fail_count := u32inc st.usb_comm_fail_count }

/-- error_recovery.c, ErrorStats_BLEConnect. -/
def ErrorStats_BLEConnect (st : ErrorStats) : ErrorStats :=
  { st with ble_connect_count := u32inc st.ble_connect_count }

/-- error_recovery.c, ErrorStats_BLEDisconnect. -/
def ErrorStats_BLEDisconnect (st : ErrorStats) : ErrorStats :=
  { st with ble_disconnect_count := u32inc st.ble_disconnect_count }

/-- error_recovery.c, ErrorStats_WatchdogTimeout. -/
def ErrorStats_WatchdogTimeout (st : ErrorStats) : ErrorStats :=
  { st with watchdog_timeout_count := u32inc st.watchdog_timeout_count }

-- ===================================================================
-- Reconnect / watchdog state (src/APP/error_recovery.c, ReconnectState_t)
-- ===================================================================

/-- error_recovery.c, ReconnectState_t (g_reconnect_state).  States are the
numeric codes of the C source: 0 = idle, 1 = waiting, 2 = reconnecting.
usb_reconnect_delay and watchdog_timeout are uint16_t, the retry counters
uint8_t; enable and safe-mode flags are tested only against zero and modelled
as Bool. -/
structure ReconnectState where
  usb_reconnect_enabled : Bool
  usb_reconnect_state : Nat
  usb_reconnect_delay : Nat
  usb_reconnect_max_retry : Nat
  usb_reconnect_retry : Nat
  ble_reconnect_enabled : Bool
  ble_reconnect_state : Nat
  ble_reconnect_delay : Nat
  ble_reconnect_max_retry : Nat
  ble_reconnect_retry : Nat
  watchdog_enabled : Bool
  watchdog_timeout : Nat
  watchdog_safe_mode : Bool
deriving DecidableEq

-- ===================================================================
-- Global system state threaded through the bridge and recovery layers
-- ===================================================================

/-- The mutable globals the bridge core touches: the registry
(usb_device_manager.c), the error statistics and reconnect/watchdog state
(error_recovery.c), and the usb_bridge.c module statics kbd_send_pending,
last_kbd_report, Bridge_NewDevFlag, Var_NizMouse_Record, plus the static
stats_counter of ErrorRecovery_Poll. -/
structure Sys where
  mgr : Manager
  stats : ErrorStats
  recState : ReconnectState
  kbd_send_pending : Bool
  last_kbd_report : List Nat
  bridge_new_dev : Bool
  niz_record : Nat
  stats_counter : Nat
deriving DecidableEq

/-- error_recovery.c, USBReconnect_Init: enable, go idle, clear delay and retry
count, max retry 3. -/
def USBReconnect_Init (s : Sys) : Sys :=
  let r := { s.recState with
    usb_reconnect_enabled := true, usb_reconnect_state := 0,
    usb_reconnect_delay := 0, usb_reconnect_max_retry := 3,
    usb_reconnect_retry := 0 }
  { s with recState := r }

/-- error_recovery.c, BLEReconnect_Init: enable, go idle, clear delay and retry
count, max retry 5. -/
def BLEReconnect_Init (s : Sys) : Sys :=
  let r := { s.recState with
    ble_reconnect_enabled := true, ble_reconnect_state := 0,
    ble_reconnect_delay := 0, ble_reconnect_max_retry := 5,
    ble_reconnect_retry := 0 }
  { s with recState := r }

/-- error_recovery.c, Watchdog_Init: enable, clear the accumulator and the
safe-mode flag. -/
def Watchdog_Init (s : Sys) : Sys :=
  let r := { s.recState with
    watchdog_enabled := true, watchdog_timeout := 0,
    watchdog_safe_mode := false }
  { s with recState := r }

/-- usb_bridge.c, USB_Bridge_Init: after the hardware and stack setup, clear
Bridge_NewDevFlag and kbd_send_pending, reset Var_NizMouse_Record to
NIZ_MOUSE_ENDP & 0x7F = 4, then run ErrorStats_Init, USBReconnect_Init,
BLEReconnect_Init, USB_Bridge_ConfigInit (no bridge-visible state) and
UsbDeviceManager_Init, in that order. -/
def USB_Bridge_Init (s : Sys) : Sys :=
  let s1 := { s with bridge_new_dev := false, kbd_send_pending := false,
                     niz_record := 4 }
  let s2 := { s1 with stats := ErrorStats_Init }
  let s3 := USBReconnect_Init s2
  let s4 := BLEReconnect_Init s3
  { s4 with mgr := UsbDeviceManager_Init }

/-- error_recovery.c, USBReconnect_Start: no-op unless enabled and idle; else
enter waiting with a 1000 ms delay, zero the retry count and log a USB
disconnect stat. -/
def USBReconnect_Start (s : Sys) : Sys :=
  if ¬s.recState.usb_reconnect_enabled then s
  else if s.recState.usb_reconnect_state = 0 then
    let r := { s.recState with
      usb_reconnect_state := 1, usb_reconnect_delay := 1000,
      usb_reconnect_retry := 0 }
    { s with recState := r, stats := ErrorStats_USBDisconnect s.stats }
  else s

/-- error_recovery.c, USBReconnect_Execute.  `success` stands for the hardware
check `ThisUsb2Dev.DeviceStatus >= ROOT_DEV_SUCCESS` performed after the
re-initialisation and the fixed 500 ms wait.  Note that the attempt itself runs
USB_Bridge_Init, which re-initialises the error statistics and both reconnect
state machines. -/
def USBReconnect_Execute (s : Sys) (success : Bool) : Sys × Nat :=
  if s.recState.usb_reconnect_state ≠ 2 then (s, 0)
  else if s.recState.usb_reconnect_retry ≥ s.recState.usb_reconnect_max_retry then
    let r := { s.recState with usb_reconnect_state := 0 }
    ({ s with recState := r }, 0)
  else
    let s1 := USB_Bridge_Init s
    if success then
      let r := { s1.recState with usb_reconnect_state := 0 }
      ({ s1 with stats := ErrorStats_USBConnect s1.stats, recState := r }, 1)
    else
      let r := { s1.recState with
        usb_reconnect_retry := u8inc s1.recState.usb_reconnect_retry,
        usb_reconnect_state := 1, usb_reconnect_delay := 2000 }
      let st := { s1.stats with
        usb_reconnect_retry := u32inc s1.stats.usb_reconnect_retry }
      ({ s1 with recState := r, stats := st }, 0)

/-- error_recovery.c, USBReconnect_Poll: start on a detected disconnect, then
run the state machine switch (waiting: count the delay down and enter
reconnecting when it is spent; reconnecting: run Execute). -/
def USBReconnect_Poll (s : Sys) (tick_ms : Nat) (disconnected success : Bool) :
    Sys :=
  let s := if disconnected then USBReconnect_Start s else s
  if s.recState.usb_reconnect_state = 1 then
    if s.recState.usb_reconnect_delay > tick_ms then
      let r := { s.recState with
        usb_reconnect_delay := s.recState.usb_reconnect_delay - tick_ms }
      { s with recState := r }
    else
      let r := { s.recState with usb_reconnect_state := 2 }
      { s with recState := r }
  else if s.recState.usb_reconnect_state = 2 then
    (USBReconnect_Execute s success).1
  else s

/-- error_recovery.c, BLEReconnect_CheckDisconnect: the simplified
implementation always reports the link as up. -/
def BLEReconnect_CheckDisconnect : Bool := false

/-- error_recovery.c, BLEReconnect_Start. -/
def BLEReconnect_Start (s : Sys) : Sys :=
  if ¬s.recState.ble_reconnect_enabled then s
  else if s.recState.ble_reconnect_state = 0 then
    let r := { s.recState with
      ble_reconnect_state := 1, ble_reconnect_delay := 1000,
      ble_reconnect_retry := 0 }
    { s with recState := r, stats := ErrorStats_BLEDisconnect s.stats }
  else s

/-- error_recovery.c, BLEReconnect_Execute.  `success` stands for the result of
HidEmu_ConnectBLE after the disconnect call and the 100 ms wait. -/
def BLEReconnect_Execute (s : Sys) (success : Bool) : Sys × Nat :=
  if s.recState.ble_reconnect_state ≠ 2 then (s, 0)
  else if s.recState.ble_reconnect_retry ≥ s.recState.ble_reconnect_max_retry then
    let r := { s.recState with ble_reconnect_state := 0 }
    ({ s with recState := r }, 0)
  else if success then
    let r := { s.recState with ble_reconnect_state := 0 }
    ({ s with stats := ErrorStats_BLEConnect s.stats, recState := r }, 1)
  else
    let r := { s.recState with
      ble_reconnect_retry := u8inc s.recState.ble_reconnect_retry,
      ble_reconnect_state := 1, ble_reconnect_delay := 3000 }
    let st := { s.stats with
      ble_reconnect_retry := u32inc s.stats.ble_reconnect_retry }
    ({ s with recState := r, stats := st }, 0)

/-- error_recovery.c, BLEReconnect_Poll. -/
def BLEReconnect_Poll (s : Sys) (tick_ms : Nat) (success : Bool) : Sys :=
  let s := if BLEReconnect_CheckDisconnect then BLEReconnect_Start s else s
  if s.recState.ble_reconnect_state = 1 then
    if s.recState.ble_reconnect_delay > tick_ms then
      let r := { s.recState with
        ble_reconnect_delay := s.recState.ble_reconnect_delay - tick_ms }
      { s with recState := r }
    else
      let r := { s.recState with ble_reconnect_state := 2 }
      { s with recState := r }
  else if s.recState.ble_reconnect_state = 2 then
    (BLEReconnect_Execute s success).1
  else s

/-- error_recovery.c, Watchdog_Feed: when enabled, clear the accumulator. -/
def Watchdog_Feed (s : Sys) : Sys :=
  if s.recState.watchdog_enabled then
    let r := { s.recState with watchdog_timeout := 0 }
    { s with recState := r }
  else s

/-- error_recovery.c, Watchdog_SafeRecovery: record the watchdog stat, raise
the safe-mode flag, re-initialise the bridge end to end (USB_Bridge_Init, which
also re-initialises the statistics block just written to), then clear the
safe-mode flag. -/
def Watchdog_SafeRecovery (s : Sys) : Sys :=
  let s1 := { s with stats := ErrorStats_WatchdogTimeout s.stats }
  let r2 := { s1.recState with watchdog_safe_mode := true }
  let s2 := { s1 with recState := r2 }
  let s3 := USB_Bridge_Init s2
  let r4 := { s3.recState with watchdog_safe_mode := false }
  { s3 with recState := r4 }

/-- error_recovery.c, Watchdog_Poll: accumulate the tick into the uint16_t
counter; over 10000 run safe recovery and zero the counter; afterwards, feed
the dog whenever the counter is an exact multiple of 1000.  The returned flag
marks whether safe recovery ran during this call. -/
def Watchdog_Poll (s : Sys) (tick_ms : Nat) : Sys × Bool :=
  if ¬s.recState.watchdog_enabled then (s, false)
  else
    let r1 := { s.recState with
      watchdog_timeout := (s.recState.watchdog_timeout + tick_ms) % 65536 }
    let s1 := { s with recState := r1 }
    let p :=
      if s1.recState.watchdog_timeout > 10000 then
        let s2 := Watchdog_SafeRecovery s1
        let r3 := { s2.recState with watchdog_timeout := 0 }
        ({ s2 with recState := r3 }, true)
      else (s1, false)
    if p.1.recState.watchdog_timeout % 1000 = 0 then (Watchdog_Feed p.1, p.2)
    else p

/-- error_recovery.c, ErrorRecovery_Poll: USB reconnect poll, BLE reconnect
poll, watchdog poll, then the 10-second statistics print counter (a uint16_t
static). -/
def ErrorRecovery_Poll (s : Sys) (tick_ms : Nat)
    (usb_disconnected usb_ok ble_ok : Bool) : Sys :=
  let s := USBReconnect_Poll s tick_ms usb_disconnected usb_ok
  let s := BLEReconnect_Poll s tick_ms ble_ok
  let s := (Watchdog_Poll s tick_ms).1
  let s := { s with stats_counter := (s.stats_counter + tick_ms) % 65536 }
  if s.stats_counter ≥ 10000 then { s with stats_counter := 0 } else s

-- ===================================================================
-- Bridge poll loop (src/APP/usb_bridge.c)
-- ===================================================================

/-- Result of AnalyzeRootU2Hub as usb_bridge.c tests it: ERR_USB_CONNECT,
ERR_USB_DISCON, or any other status. -/
inductive HubEvent where
  | connect
  | disconnect
  | other
deriving DecidableEq

/-- The transport and BLE collaborator results one USB_Bridge_Poll invocation
consumes, supplied at exactly the call sites of the C code: the resend result
of step 0, the hot-plug interrupt flag and AnalyzeRootU2Hub result of step 1,
the InitRootU2Device result, the two U2SearchTypeDevice results and resolved
endpoints of step 2, the root-device disconnect status of step 3, and the
per-slot IN-transaction status, receive length, receive buffer and BLE send
results of step 4, plus the reconnect outcomes of the recovery tick. -/
structure TickEnv where
  resend_ok : Bool
  detect_flag : Bool
  analyze_result : HubEvent
  init_ok : Bool
  kbd_search : Option (Nat × Nat)
  kbd_endpoint : Nat
  mouse_search : Option Nat
  mouse_endpoint : Nat
  root_disconnected : Bool
  transact_ok : Nat → Bool
  rx_len : Nat → Nat
  rx_buf : Nat → List Nat
  kbd_send_ok : Bool
  mouse_send_ok : Bool
  usb_reconnect_ok : Bool
  ble_reconnect_ok : Bool

/-- The externally visible transport / BLE calls a poll performs, recorded in
program order.  sendKbdBle and sendMouseBle carry the report handed to the BLE
collaborator. -/
inductive BridgeAction where
  | sendKbdBle (report : List Nat)
  | sendMouseBle (report : List Nat)
  | drainHotplug
  | initRootDevice
  | enumHubPorts
  | searchDevice (dev_type : Nat)
  | selectPort (port : Nat)
  | transactIn (slot : Nat)
  | recoveryTick
deriving DecidableEq

/-- usb_bridge.c, USB_Bridge_DiscoverDevices: for the keyboard then the mouse,
when the transport search succeeds and the resolved endpoint is valid and no
device of that type is registered yet, add the device. -/
def USB_Bridge_DiscoverDevices (m : Manager) (env : TickEnv) : Manager :=
  let m1 :=
    match env.kbd_search with
    | none => m
    | some pr =>
      if IsEndpointValid env.kbd_endpoint then
        if UsbDeviceManager_FindDeviceByType m DEV_TYPE_KEYBOARD = 0xFF then
          (UsbDeviceManager_AddDevice m pr.1 DEV_TYPE_KEYBOARD env.kbd_endpoint).2
        else m
      else m
  match env.mouse_search with
  | none => m1
  | some addr =>
    if IsEndpointValid env.mouse_endpoint then
      if UsbDeviceManager_FindDeviceByType m1 DEV_TYPE_MOUSE = 0xFF then
        (UsbDeviceManager_AddDevice m1 addr DEV_TYPE_MOUSE env.mouse_endpoint).2
      else m1
    else m1

/-- usb_bridge.c, USB_Bridge_CheckDeviceDisconnect: 0 for an unregistered
index, else whether the root device status reads ROOT_DEV_DISCONNECTED. -/
def USB_Bridge_CheckDeviceDisconnect (m : Manager) (env : TickEnv)
    (dev_index : Nat) : Bool :=
  match UsbDeviceManager_GetDevice m dev_index with
  | none => false
  | some _ => env.root_disconnected

/-- usb_bridge.c, USB_Bridge_RemoveDisconnectedDevices. -/
def USB_Bridge_RemoveDisconnectedDevices (m : Manager) (env : TickEnv) :
    Manager :=
  (List.range 4).foldl (fun m i =>
    if UsbDeviceManager_IsValid m i then
      if USB_Bridge_CheckDeviceDisconnect m env i then
        UsbDeviceManager_RemoveDevice m i
      else m
    else m) m

/-- The slot as rewritten by the pointer write of USB_Bridge_ProcessDevice. -/
def updatedEndpointDev (d : UsbDevice) (endp : Nat) : UsbDevice :=
  { d with endpoint := endp }

/-- Direct pointer write `p_device->endpoint = endp_addr` performed by
USB_Bridge_ProcessDevice through the slot pointer. -/
def setDeviceEndpoint (m : Manager) (dev_index endp : Nat) : Manager :=
  { m with
    devices := m.devices.set dev_index
      (updatedEndpointDev (getDev m.devices dev_index) endp) }

/-- usb_bridge.c, USB_Bridge_ProcessDevice: look the slot up (NULL or a
disconnected / invalid slot reads nothing), select the port, run one IN
transaction with the current endpoint token; on success toggle the token and
store it back, then, when bytes arrived, translate and forward them --
keyboard: parse, update the slot report, send over BLE and count a USB comm
failure when the send fails; mouse: adapt the protocol by length, update the
slot report, send over BLE ignoring the result.  Returns the Sys, the C return
value, and the transport actions performed. -/
def USB_Bridge_ProcessDevice (s : Sys) (env : TickEnv) (dev_index : Nat) :
    Sys × Nat × List BridgeAction :=
  match UsbDeviceManager_GetDevice s.mgr dev_index with
  | none => (s, 0, [])
  | some dev =>
    if ¬dev.is_connected ∨ ¬dev.is_valid then (s, 0, [])
    else
      let acts := [BridgeAction.selectPort dev.dev_addr,
                   BridgeAction.transactIn dev_index]
      if env.transact_ok dev_index then
        let endp := Endpoint_SyncToggle dev.endpoint
        let m1 := setDeviceEndpoint s.mgr dev_index endp
        let len := env.rx_len dev_index
        if len > 0 then
          if dev.dev_type = DEV_TYPE_KEYBOARD then
            let rep := Parse_Keyboard_Data (env.rx_buf dev_index) len
            let m2 := UsbDeviceManager_UpdateReport m1 dev_index rep 8
            if ¬env.kbd_send_ok then
              ({ s with mgr := m2, stats := ErrorStats_USBCommFail s.stats }, 1,
               acts ++ [BridgeAction.sendKbdBle rep])
            else
              ({ s with mgr := m2 }, 1, acts ++ [BridgeAction.sendKbdBle rep])
          else if dev.dev_type = DEV_TYPE_MOUSE then
            let rep := decodeMouse (env.rx_buf dev_index) len
            let m2 := UsbDeviceManager_UpdateReport m1 dev_index rep 4
            ({ s with mgr := m2 }, 1, acts ++ [BridgeAction.sendMouseBle rep])
          else ({ s with mgr := m1 }, 1, acts)
        else ({ s with mgr := m1 }, 0, acts)
      else (s, 0, acts)

/-- Steps 1 to 5 of USB_Bridge_Poll (everything after the pending-retry gate):
hot-plug drain, new-device settle and root re-init, hub maintenance, discovery,
eviction, the per-slot transactions, and the recovery tick with a 1 ms tick
value. -/
def USB_Bridge_PollBody (s : Sys) (env : TickEnv) : Sys × List BridgeAction :=
  let p1 : Sys × List BridgeAction :=
    if env.detect_flag then
      let s1 :=
        match env.analyze_result with
        | HubEvent.connect => { s with bridge_new_dev := true }
        | HubEvent.disconnect => { s with bridge_new_dev := false }
        | HubEvent.other => s
      (s1, [BridgeAction.drainHotplug])
    else (s, [])
  let p2 : Sys × List BridgeAction :=
    if p1.1.bridge_new_dev then
      let s2 := { p1.1 with bridge_new_dev := false }
      if env.init_ok then
        ({ s2 with niz_record := 4 },
         p1.2 ++ [BridgeAction.initRootDevice])
      else (s2, p1.2 ++ [BridgeAction.initRootDevice])
    else p1
  let p3 : Sys × List BridgeAction := (p2.1, p2.2 ++ [BridgeAction.enumHubPorts,
    BridgeAction.searchDevice DEV_TYPE_KEYBOARD,
    BridgeAction.searchDevice DEV_TYPE_MOUSE])
  let s4 := { p3.1 with mgr := USB_Bridge_DiscoverDevices p3.1.mgr env }
  let s5 := { s4 with mgr := USB_Bridge_RemoveDisconnectedDevices s4.mgr env }
  let p6 : Sys × List BridgeAction :=
    (List.range 4).foldl (fun p i =>
      if UsbDeviceManager_IsValid p.1.mgr i then
        let q := USB_Bridge_ProcessDevice p.1 env i
        (q.1, p.2 ++ q.2.2)
      else p) (s5, p3.2)
  let s7 := ErrorRecovery_Poll p6.1 1 env.root_disconnected env.usb_reconnect_ok
    env.ble_reconnect_ok
  (s7, p6.2 ++ [BridgeAction.recoveryTick])

/-- usb_bridge.c, USB_Bridge_Poll: step 0 is the pending-retry gate -- when
kbd_send_pending is set, resend last_kbd_report; on success clear the flag and
continue with the poll body, on failure return at once, having touched nothing
but the BLE resend. -/
def USB_Bridge_Poll (s : Sys) (env : TickEnv) : Sys × List BridgeAction :=
  if s.kbd_send_pending then
    if env.resend_ok then
      let body := USB_Bridge_PollBody { s with kbd_send_pending := false } env
      (body.1, BridgeAction.sendKbdBle s.last_kbd_report :: body.2)
    else (s, [BridgeAction.sendKbdBle s.last_kbd_report])
  else USB_Bridge_PollBody s env

-- ===================================================================
-- Concrete states and environments used by the claims
-- ===================================================================

/-- The reconnect/watchdog state after ErrorRecovery_Init (USBReconnect_Init,
BLEReconnect_Init, Watchdog_Init). -/
def recInit : ReconnectState :=
  { usb_reconnect_enabled := true, usb_reconnect_state := 0,
    usb_reconnect_delay := 0, usb_reconnect_max_retry := 3,
    usb_reconnect_retry := 0,
    ble_reconnect_enabled := true, ble_reconnect_state := 0,
    ble_reconnect_delay := 0, ble_reconnect_max_retry := 5,
    ble_reconnect_retry := 0,
    watchdog_enabled := true, watchdog_timeout := 0,
    watchdog_safe_mode := false }

/-- The system state after power-up initialisation (USB_Bridge_Init followed by
Watchdog_Init): empty registry, zero statistics, both reconnect machines idle
and enabled, watchdog enabled, no pending keyboard resend. -/
def sysInit : Sys :=
  { mgr := UsbDeviceManager_Init, stats := ErrorStats_Init, recState := recInit,
    kbd_send_pending := false, last_kbd_report := List.replicate 8 0,
    bridge_new_dev := false, niz_record := 4, stats_counter := 0 }

/-- A tick environment in which nothing happens: no hot-plug edge, no devices
found, every transaction fails, the root device is attached, BLE sends
succeed. -/
def quietEnv : TickEnv :=
  { resend_ok := true, detect_flag := false, analyze_result := HubEvent.other,
    init_ok := false, kbd_search := none, kbd_endpoint := 0,
    mouse_search := none, mouse_endpoint := 0, root_disconnected := false,
    transact_ok := fun _ => false, rx_len := fun _ => 0,
    rx_buf := fun _ => [], kbd_send_ok := true, mouse_send_ok := true,
    usb_reconnect_ok := false, ble_reconnect_ok := false }

/-- System with one registered, connected keyboard in slot 0 (address 1,
endpoint 0x81). -/
def kbdSys : Sys :=
  let m := (UsbDeviceManager_AddDevice UsbDeviceManager_Init 1 DEV_TYPE_KEYBOARD 0x81).2
  { sysInit with mgr := m }

/-- Environment for one tick in which the keyboard IN transaction succeeds with
an 8-byte boot report and the BLE keyboard send fails (Busy). -/
def kbdBusyEnv : TickEnv :=
  { quietEnv with
    transact_ok := fun _ => true
    rx_len := fun _ => 8
    rx_buf := fun _ => [1, 0, 4, 0, 0, 0, 0, 0]
    kbd_send_ok := false }

/-- System with one registered, connected mouse in slot 0 (address 1, endpoint
0x82). -/
def mouseSys : Sys :=
  let m := (UsbDeviceManager_AddDevice UsbDeviceManager_Init 1 DEV_TYPE_MOUSE 0x82).2
  { sysInit with mgr := m }

/-- Environment for one tick in which the mouse IN transaction succeeds with a
4-byte report and the BLE mouse send fails (backpressure). -/
def mouseBusyEnv : TickEnv :=
  { quietEnv with
    transact_ok := fun _ => true
    rx_len := fun _ => 4
    rx_buf := fun _ => [0, 10, 250, 0]
    mouse_send_ok := false }

/-- The concrete reconnect trace of the claim: Start on the idle machine, Poll
1000 into Reconnecting, then three failing Execute calls with Poll re-entering
Waiting and Reconnecting between attempts. -/
def usbReconnectTrace : Sys :=
  let s1 := USBReconnect_Start sysInit
  let s2 := USBReconnect_Poll s1 1000 false false
  let s3 := (USBReconnect_Execute s2 false).1
  let s4 := USBReconnect_Poll s3 2000 false false
  let s5 := (USBReconnect_Execute s4 false).1
  let s6 := USBReconnect_Poll s5 2000 false false
  (USBReconnect_Execute s6 false).1

/-- Run Watchdog_Poll over a list of tick values, counting how many calls
invoked safe recovery. -/
def watchdogRun (s : Sys) : List Nat → Sys × Nat
  | [] => (s, 0)
  | t :: ts =>
    let p := Watchdog_Poll s t
    let q := watchdogRun p.1 ts
    (q.1, (if p.2 then 1 else 0) + q.2)

-- ===================================================================
-- Helper lemmas
-- ===================================================================

theorem and_one_eq_one_iff_testBit (x b : Nat) :
    ((x >>> b) &&& 1 = 1) ↔ x.testBit b = true := by
  simp [Nat.testBit, Nat.and_one_is_mod]

theorem kbdBitStep_eq (buf : List Nat) (i b : Nat) (st : List Nat × Nat) :
    kbdBitStep buf i st b =
      match kbdAccept buf i b with
      | none => st
      | some k => if st.2 < 6 then (st.1.set (2 + st.2) k, st.2 + 1) else st := by
  simp only [kbdBitStep, kbdAccept, NIZ_KEY_OFFSET]
  by_cases h1 : (buf.getD i 0 >>> b) &&& 1 = 1
  · rw [if_pos h1, if_pos h1]
    by_cases h2 : 3 < ((i - 2) * 8 + b + 4) % 256 ∧ ((i - 2) * 8 + b + 4) % 256 < 255
    · rw [if_pos h2]
      by_cases h3 : st.2 < 6
      · rw [if_pos ⟨h2.1, h2.2, h3⟩]
        show _ = if st.2 < 6 then _ else st
        rw [if_pos h3]
      · rw [if_neg (fun hc => h3 hc.2.2)]
        show st = if st.2 < 6 then _ else st
        rw [if_neg h3]
    · rw [if_neg (fun hc => h2 ⟨hc.1, hc.2.1⟩), if_neg h2]
  · rw [if_neg h1, if_neg h1]

theorem foldl_kbdBitStep (buf : List Nat) (i : Nat) (bs : List Nat)
    (st : List Nat × Nat) :
    bs.foldl (kbdBitStep buf i) st = placeKeys st (bs.filterMap (kbdAccept buf i)) := by
  induction bs generalizing st with
  | nil => rfl
  | cons b bs ih =>
    rw [List.foldl_cons, ih, List.filterMap_cons]
    rw [kbdBitStep_eq]
    cases h : kbdAccept buf i b with
    | none => rfl
    | some k =>
      by_cases h3 : st.2 < 6
      · simp [placeKeys, h3]
      · simp [placeKeys, h3]

theorem kbdByteStep_eq (buf : List Nat) (i : Nat) (st : List Nat × Nat) :
    kbdByteStep buf st i = placeKeys st ((List.range 8).filterMap (kbdAccept buf i)) := by
  by_cases h : buf.getD i 0 ≠ 0
  · rw [kbdByteStep, if_pos h, foldl_kbdBitStep]
  · push_neg at h
    have hz : ∀ b, kbdAccept buf i b = none := by
      intro b
      unfold kbdAccept
      rw [h]
      simp
    have hnil : (List.range 8).filterMap (kbdAccept buf i) = [] :=
      List.filterMap_eq_nil_iff.mpr (fun b _ => hz b)
    rw [kbdByteStep, if_neg (fun hc => hc h), hnil]
    rfl

theorem placeKeys_append (xs ys : List Nat) (st : List Nat × Nat) :
    placeKeys st (xs ++ ys) = placeKeys (placeKeys st xs) ys := by
  induction xs generalizing st with
  | nil => rfl
  | cons x xs ih =>
    by_cases h : st.2 < 6
    · simp [placeKeys, h, ih]
    · simp [placeKeys, h, ih]

theorem foldl_kbdByteStep (buf : List Nat) (is : List Nat) (st : List Nat × Nat) :
    is.foldl (kbdByteStep buf) st =
      placeKeys st (is.flatMap (fun i => (List.range 8).filterMap (kbdAccept buf i))) := by
  induction is generalizing st with
  | nil => rfl
  | cons i is ih =>
    rw [List.foldl_cons, ih, List.flatMap_cons, placeKeys_append, kbdByteStep_eq]

theorem nkroKeycodesAmended_eq_accept (buf : List Nat) (len : Nat) :
    nkroKeycodesAmended buf len =
      (List.range' 2 (len - 2)).flatMap (fun i =>
        (List.range 8).filterMap (kbdAccept buf i)) := by
  unfold nkroKeycodesAmended
  congr 1
  funext i
  apply List.filterMap_congr
  intro b _
  by_cases h : (buf.getD i 0).testBit b
  · rw [if_pos h, kbdAccept, if_pos ((and_one_eq_one_iff_testBit _ _).mpr h)]
  · rw [if_neg h, kbdAccept,
      if_neg (fun hc => h ((and_one_eq_one_iff_testBit _ _).mp hc))]

theorem placeKeys_stuck (ks : List Nat) (st : List Nat × Nat) (h : ¬st.2 < 6) :
    placeKeys st ks = st := by
  induction ks with
  | nil => rfl
  | cons k ks ih => simp [placeKeys, h, ih]

theorem set_append_cons (pre rest : List Nat) (k : Nat) :
    (pre ++ 0 :: rest).set pre.length k = pre ++ k :: rest := by
  induction pre with
  | nil => rfl
  | cons a l ih => simp [List.set, ih]

theorem set_cons_cons (a b : Nat) (l : List Nat) (n k : Nat) :
    (a :: b :: l).set (2 + n) k = a :: b :: l.set n k := by
  have h : 2 + n = n + 2 := by omega
  rw [h]
  rfl

theorem placeKeys_shape (ks : List Nat) (pre : List Nat) (m0 : Nat)
    (h : pre.length ≤ 6) :
    placeKeys (m0 :: 0 :: (pre ++ List.replicate (6 - pre.length) 0), pre.length) ks
      = (m0 :: 0 :: ((pre ++ ks.take (6 - pre.length)) ++
          List.replicate (6 - pre.length - ks.length) 0),
         min (pre.length + ks.length) 6) := by
  induction ks generalizing pre with
  | nil =>
    simp [placeKeys]
    omega
  | cons k ks ih =>
    by_cases hlt : pre.length < 6
    · have hstep :
          placeKeys (m0 :: 0 :: (pre ++ List.replicate (6 - pre.length) 0),
            pre.length) (k :: ks)
          = placeKeys ((m0 :: 0 :: (pre ++ List.replicate (6 - pre.length) 0)).set
              (2 + pre.length) k, pre.length + 1) ks := by
        simp [placeKeys, hlt]
      have hrep : 6 - pre.length = (6 - (pre.length + 1)) + 1 := by omega
      have hset : (m0 :: 0 :: (pre ++ List.replicate (6 - pre.length) 0)).set
            (2 + pre.length) k
          = m0 :: 0 :: ((pre ++ [k]) ++ List.replicate (6 - (pre.length + 1)) 0) := by
        rw [set_cons_cons, hrep, List.replicate_succ, set_append_cons]
        simp
      have hlen : (pre ++ [k]).length = pre.length + 1 := by simp
      have ih2 := ih (pre ++ [k]) (by simp; omega)
      rw [hlen] at ih2
      rw [hstep, hset, ih2, Prod.mk.injEq]
      have htake : (k :: ks).take (6 - pre.length)
          = k :: ks.take (6 - (pre.length + 1)) := by
        rw [hrep, List.take_succ_cons]
      constructor
      · rw [htake]
        have hc : 6 - pre.length - (ks.length + 1)
            = 6 - (pre.length + 1) - ks.length := by omega
        rw [List.length_cons, hc]
        simp
      · rw [List.length_cons]
        omega
    · have h6 : pre.length = 6 := by omega
      have hstep :
          placeKeys (m0 :: 0 :: (pre ++ List.replicate (6 - pre.length) 0),
            pre.length) (k :: ks)
          = placeKeys (m0 :: 0 :: (pre ++ List.replicate (6 - pre.length) 0),
            pre.length) ks := by
        simp [placeKeys, hlt]
      rw [hstep, placeKeys_stuck ks _ (by simp [h6]), Prod.mk.injEq]
      constructor
      · have hz : 6 - pre.length = 0 := by omega
        rw [hz]
        simp
      · simp [h6]

theorem getD_range_map (l : List Nat) :
    (List.range l.length).map (fun j => l.getD j 0) = l := by
  induction l with
  | nil => rfl
  | cons a l ih =>
    rw [List.length_cons, List.range_succ_eq_map, List.map_cons, List.map_map]
    show a :: (List.range l.length).map (fun j => l.getD j 0) = a :: l
    rw [ih]

theorem parse_keyboard_eq_amended (buf : List Nat) (len : Nat) :
    Parse_Keyboard_Data buf len = decodeKeyboardAmended buf len := by
  by_cases h8 : len = 8
  · simp only [Parse_Keyboard_Data, decodeKeyboardAmended, if_pos h8]
  · by_cases hgt : len > 8
    · have hK := nkroKeycodesAmended_eq_accept buf len
      have hshape := placeKeys_shape (nkroKeycodesAmended buf len) [] (buf.getD 0 0)
        (by simp)
      simp only [List.length_nil, List.nil_append, Nat.sub_zero, Nat.zero_add]
        at hshape
      simp only [Parse_Keyboard_Data, decodeKeyboardAmended, if_neg h8, if_pos hgt]
      rw [foldl_kbdByteStep, ← hK]
      have hst : ((List.replicate 8 0).set 0 (buf.getD 0 0) : List Nat)
          = buf.getD 0 0 :: 0 :: List.replicate 6 0 := rfl
      rw [hst, hshape]
      have hlen6 : 6 - (nkroKeycodesAmended buf len).length
          = 6 - ((nkroKeycodesAmended buf len).take 6).length := by
        rw [List.length_take]
        omega
      show _ :: _ :: ((nkroKeycodesAmended buf len).take 6 ++
        List.replicate (6 - (nkroKeycodesAmended buf len).length) 0) = _
      rw [hlen6]
    · simp only [Parse_Keyboard_Data, decodeKeyboardAmended, if_neg h8, if_neg hgt]

theorem getD_set_self {α : Type} (l : List α) (i : Nat) (d x : α)
    (h : i < l.length) : (l.set i d).getD i x = d := by
  simp [List.getD, List.getElem?_set_self, h]

theorem getDev_set_self (l : List UsbDevice) (i : Nat) (d : UsbDevice)
    (h : i < l.length) : getDev (l.set i d) i = d :=
  getD_set_self l i d emptyDevice h

theorem valid_getDev_lt_length (l : List UsbDevice) (i : Nat)
    (h : (getDev l i).is_valid = true) : i < l.length := by
  by_contra hc
  push_neg at hc
  rw [getDev, List.getD_eq_default _ _ hc] at h
  simp [emptyDevice] at h

theorem addDeviceAux_eq (d : UsbDevice) (l : List UsbDevice) :
    addDeviceAux d l = (firstInvalidIdx l).map (fun i => (i, l.set i d)) := by
  induction l with
  | nil => rfl
  | cons dev rest ih =>
    by_cases h : dev.is_valid
    · simp only [addDeviceAux, firstInvalidIdx, if_pos h, ih]
      cases firstInvalidIdx rest with
      | none => rfl
      | some i => rfl
    · simp only [addDeviceAux, firstInvalidIdx, if_neg h]
      rfl

theorem firstInvalidIdx_none_iff (l : List UsbDevice) :
    firstInvalidIdx l = none ↔ ∀ x ∈ l, x.is_valid = true := by
  induction l with
  | nil => simp [firstInvalidIdx]
  | cons dev rest ih =>
    by_cases h : dev.is_valid
    · simp [firstInvalidIdx, h, ih]
    · simp [firstInvalidIdx, h]

theorem firstInvalidIdx_some (l : List UsbDevice) (i : Nat)
    (h : firstInvalidIdx l = some i) :
    i < l.length ∧ (getDev l i).is_valid = false := by
  induction l generalizing i with
  | nil => simp [firstInvalidIdx] at h
  | cons dev rest ih =>
    by_cases hv : dev.is_valid
    · simp only [firstInvalidIdx, if_pos hv] at h
      cases hf : firstInvalidIdx rest with
      | none => rw [hf] at h; simp at h
      | some j =>
        rw [hf] at h
        simp at h
        obtain ⟨hjlt, hjv⟩ := ih j hf
        subst h
        refine ⟨by simpa using Nat.succ_lt_succ hjlt, ?_⟩
        show (getDev rest j).is_valid = false
        exact hjv
    · simp only [firstInvalidIdx, if_neg hv] at h
      simp at h
      subst h
      refine ⟨by simp, ?_⟩
      show dev.is_valid = false
      simpa using hv

theorem filter_length_set (l : List UsbDevice) (i : Nat) (d : UsbDevice)
    (p : UsbDevice → Bool) (h : i < l.length) :
    ((l.set i d).filter p).length + (if p (getDev l i) then 1 else 0)
      = (l.filter p).length + (if p d then 1 else 0) := by
  induction l generalizing i with
  | nil => simp at h
  | cons a rest ih =>
    cases i with
    | zero =>
      have hgd : getDev (a :: rest) 0 = a := rfl
      rw [hgd]
      show ((d :: rest).filter p).length + _ = _
      rw [List.filter_cons, List.filter_cons]
      by_cases hpa : p a <;> by_cases hpd : p d <;>
        simp only [if_pos, if_neg, hpa, hpd, List.length_cons] <;> simp [hpa, hpd]
    | succ j =>
      have hj : j < rest.length := by simpa using h
      have hrec := ih j hj
      have hset : (a :: rest).set (j + 1) d = a :: rest.set j d := rfl
      have hgd : getDev (a :: rest) (j + 1) = getDev rest j := rfl
      rw [hset, hgd, List.filter_cons, List.filter_cons]
      by_cases hpa : p a
      · rw [if_pos hpa, if_pos hpa]
        simp only [List.length_cons]
        omega
      · rw [if_neg hpa, if_neg hpa]
        omega

theorem filter_length_set_add (l : List UsbDevice) (i : Nat) (d : UsbDevice)
    (p : UsbDevice → Bool) (h : i < l.length)
    (hold : p (getDev l i) = false) (hnew : p d = true) :
    ((l.set i d).filter p).length = (l.filter p).length + 1 := by
  have h0 := filter_length_set l i d p h
  rw [hold, hnew] at h0
  simpa using h0

theorem filter_length_set_remove (l : List UsbDevice) (i : Nat) (d : UsbDevice)
    (p : UsbDevice → Bool) (h : i < l.length)
    (hold : p (getDev l i) = true) (hnew : p d = false) :
    ((l.set i d).filter p).length + 1 = (l.filter p).length := by
  have h0 := filter_length_set l i d p h
  rw [hold, hnew] at h0
  simpa using h0

theorem filter_length_set_same (l : List UsbDevice) (i : Nat) (d : UsbDevice)
    (p : UsbDevice → Bool) (h : i < l.length)
    (hsame : p d = p (getDev l i)) :
    ((l.set i d).filter p).length = (l.filter p).length := by
  have h0 := filter_length_set l i d p h
  rw [hsame] at h0
  omega

theorem updateReport_active (m : Manager) (i : Nat) (rep : List Nat) (len : Nat) :
    (UsbDeviceManager_UpdateReport m i rep len).active = m.active := by
  unfold UsbDeviceManager_UpdateReport
  split_ifs <;> rfl

theorem updateSyncToggle_active (m : Manager) (i tg : Nat) :
    (UsbDeviceManager_UpdateSyncToggle m i tg).active = m.active := by
  unfold UsbDeviceManager_UpdateSyncToggle
  split_ifs <;> rfl

-- ===================================================================
-- Claim theorems
-- ===================================================================

/-- Claim C2: for every raw mouse input buffer and length len, the mouse decode
produces the 4-byte canonical report [buttons, dx, dy, wheel] exactly per the
length-keyed table: len 3 maps raw[0..3] with wheel 0; len 4 maps raw[1..4] if
raw[0] <= 5 else raw[0..4]; len 5 maps raw[1..5]; len >= 7 maps buttons raw[1],
dx raw[2], dy raw[4], wheel raw[6]; any other length yields the all-zero
report. -/
theorem C2_mouse_decode_table (raw : List Nat) (len : Nat) :
    decodeMouse raw len = decodeMouseClaim raw len := by
  unfold decodeMouse decodeMouseClaim
  split_ifs <;> first | rfl | omega

/-- Claim C3, counterexample: the claim computes the NKRO keycode as
(i-2)*8 + b + 4 and rejects values at or above 255, but the code stores the
keycode in a uint8_t, truncating it mod 256 before the range test.  On a
35-byte report whose only set bit is at byte offset 34, bit 0, the claim
rejects keycode 260 while the code accepts the truncated keycode 4. -/
theorem C3_keycode_truncation_cex :
    Parse_Keyboard_Data kbdCexBuf 35 ≠ decodeKeyboardClaim kbdCexBuf 35 := by
  decide

/-- Claim C3 (amended): keyboard decoding copies length-8 input byte for byte;
for len > 8 it copies byte 0 as the modifier mask and scans bytes from index 2,
each set bit at byte offset i and bit position b contributing the keycode
((i-2)*8 + b + 4) mod 256 (uint8_t truncation) into slots 2..7, rejecting
truncated keycodes <= 3 or >= 255, capped at 6 entries with excess set bits
silently dropped; any other length yields the all-zero 8-byte report. -/
theorem C3_keyboard_decode_amended :
    (∀ buf : List Nat, buf.length = 8 → Parse_Keyboard_Data buf 8 = buf) ∧
    (∀ (buf : List Nat) (len : Nat),
      Parse_Keyboard_Data buf len = decodeKeyboardAmended buf len) ∧
    (∀ (buf : List Nat) (len : Nat), len < 8 →
      Parse_Keyboard_Data buf len = List.replicate 8 0) := by
  refine ⟨?_, ?_, ?_⟩
  · intro buf h
    rw [Parse_Keyboard_Data, if_pos rfl, ← h, getD_range_map]
  · exact parse_keyboard_eq_amended
  · intro buf len h
    rw [Parse_Keyboard_Data, if_neg (by omega), if_neg (by omega)]

/-- Claim C3 witness: the amended theorem applied at concrete inputs. -/
theorem C3_keyboard_decode_amended_witness :
    Parse_Keyboard_Data [1, 0, 4, 5, 0, 0, 0, 0] 8 = [1, 0, 4, 5, 0, 0, 0, 0] ∧
    Parse_Keyboard_Data [1, 0, 2] 3 = List.replicate 8 0 :=
  ⟨C3_keyboard_decode_amended.1 [1, 0, 4, 5, 0, 0, 0, 0] (by decide),
   C3_keyboard_decode_amended.2.2 [1, 0, 2] 3 (by decide)⟩

/-- Claim C6: AddDevice returns the failure sentinel 0xFF if and only if all 4
slots are occupied; otherwise it installs the device in the first free slot
(valid, connected, sync toggle DATA0, cleared report buffer), increments
activeCount, and returns that slot index; among the registry mutators, only add
and remove change activeCount (UpdateReport and UpdateSyncToggle never do). -/
theorem C6_registry_add_full (m : Manager) (a t e : Nat) (hm : managerInv m) :
    ((UsbDeviceManager_AddDevice m a t e).1 = 0xFF ↔
       ∀ d ∈ m.devices, d.is_valid = true) ∧
    ((∀ d ∈ m.devices, d.is_valid = true) →
       UsbDeviceManager_AddDevice m a t e = (0xFF, m)) ∧
    (∀ i : Nat, firstInvalidIdx m.devices = some i →
       (UsbDeviceManager_AddDevice m a t e).1 = i ∧
       (UsbDeviceManager_AddDevice m a t e).2.devices
         = m.devices.set i (newUsbDevice a t e) ∧
       getDev (UsbDeviceManager_AddDevice m a t e).2.devices i
         = newUsbDevice a t e ∧
       (UsbDeviceManager_AddDevice m a t e).2.active = m.active + 1) ∧
    (newUsbDevice a t e).is_valid = true ∧
    (newUsbDevice a t e).is_connected = true ∧
    (newUsbDevice a t e).sync_toggle = 0 ∧
    (newUsbDevice a t e).report_buffer = List.replicate 8 0 ∧
    (∀ (i : Nat) (rep : List Nat) (len : Nat),
       (UsbDeviceManager_UpdateReport m i rep len).active = m.active) ∧
    (∀ i tg : Nat, (UsbDeviceManager_UpdateSyncToggle m i tg).active = m.active) := by
  obtain ⟨hlen, hact⟩ := hm
  have hbound : (m.devices.filter (fun d => d.is_valid)).length ≤ 4 := by
    have := List.length_filter_le (fun d => d.is_valid) m.devices
    omega
  refine ⟨?_, ?_, ?_, rfl, rfl, rfl, rfl,
    fun i rep len => updateReport_active m i rep len,
    fun i tg => updateSyncToggle_active m i tg⟩
  · unfold UsbDeviceManager_AddDevice
    rw [addDeviceAux_eq]
    cases hf : firstInvalidIdx m.devices with
    | none =>
      constructor
      · intro _
        exact (firstInvalidIdx_none_iff m.devices).mp hf
      · intro _
        rfl
    | some i =>
      have hi := (firstInvalidIdx_some _ _ hf).1
      constructor
      · intro h255
        have h255i : i = 255 := h255
        exfalso
        omega
      · intro hall
        rw [(firstInvalidIdx_none_iff m.devices).mpr hall] at hf
        exact absurd hf (by simp)
  · intro hall
    unfold UsbDeviceManager_AddDevice
    rw [addDeviceAux_eq, (firstInvalidIdx_none_iff m.devices).mpr hall]
    rfl
  · intro i hf
    have hi := (firstInvalidIdx_some _ _ hf).1
    unfold UsbDeviceManager_AddDevice
    rw [addDeviceAux_eq, hf]
    refine ⟨rfl, rfl, getDev_set_self _ _ _ hi, ?_⟩
    show (m.active + 1) % 256 = m.active + 1
    omega

/-- Claim C6 witness: on the empty registry (which satisfies the invariant) the
add installs slot 0 and raises the active count to 1. -/
theorem C6_registry_add_full_witness :
    (UsbDeviceManager_AddDevice UsbDeviceManager_Init 2 1 130).1 = 0 ∧
    (UsbDeviceManager_AddDevice UsbDeviceManager_Init 2 1 130).2.active = 1 := by
  have hm : managerInv UsbDeviceManager_Init := ⟨rfl, rfl⟩
  have h := (C6_registry_add_full UsbDeviceManager_Init 2 1 130 hm).2.2.1 0
    (by decide)
  exact ⟨h.1, by rw [h.2.2.2]; rfl⟩

/-- Claim C7: for every index that is out of range or refers to an invalid
slot, RemoveDevice and UpdateReport leave the registry completely unchanged
(RemoveDevice and UpdateReport never touch the error statistics, which live in
a different module, so those are untouched as well). -/
theorem C7_invalid_index_noop (m : Manager) (i : Nat)
    (h : MAX_USB_DEVICES ≤ i ∨ (getDev m.devices i).is_valid = false) :
    UsbDeviceManager_RemoveDevice m i = m ∧
    (∀ (rep : List Nat) (len : Nat),
      UsbDeviceManager_UpdateReport m i rep len = m) := by
  cases h with
  | inl h4 =>
    constructor
    · rw [UsbDeviceManager_RemoveDevice, if_pos h4]
    · intro rep len
      rw [UsbDeviceManager_UpdateReport, if_pos (Or.inl h4)]
  | inr hv =>
    have hv2 : ¬(getDev m.devices i).is_valid = true := by simp [hv]
    constructor
    · unfold UsbDeviceManager_RemoveDevice
      by_cases h1 : i ≥ MAX_USB_DEVICES
      · rw [if_pos h1]
      · rw [if_neg h1, if_neg hv2]
    · intro rep len
      unfold UsbDeviceManager_UpdateReport
      by_cases h1 : i ≥ MAX_USB_DEVICES ∨ len > 8
      · rw [if_pos h1]
      · rw [if_neg h1, if_neg hv2]

/-- Claim C7 witness: removing or updating slot 0 of the empty registry, and
slot 7 (out of range) of it, changes nothing. -/
theorem C7_invalid_index_noop_witness :
    UsbDeviceManager_RemoveDevice UsbDeviceManager_Init 7 = UsbDeviceManager_Init ∧
    UsbDeviceManager_RemoveDevice UsbDeviceManager_Init 0 = UsbDeviceManager_Init ∧
    UsbDeviceManager_UpdateReport UsbDeviceManager_Init 0 [1, 2, 3, 4] 4
      = UsbDeviceManager_Init :=
  ⟨(C7_invalid_index_noop UsbDeviceManager_Init 7 (Or.inl (by decide))).1,
   (C7_invalid_index_noop UsbDeviceManager_Init 0 (Or.inr (by decide))).1,
   (C7_invalid_index_noop UsbDeviceManager_Init 0 (Or.inr (by decide))).2
     [1, 2, 3, 4] 4⟩

/-- Claim C10: the active-device counter always equals the number of slots with
the valid flag set; the invariant holds after Init and is preserved by
AddDevice, RemoveDevice, UpdateReport and UpdateSyncToggle, and it bounds the
counter by 4. -/
theorem C10_active_count_invariant :
    managerInv UsbDeviceManager_Init ∧
    (∀ (m : Manager) (a t e : Nat), managerInv m →
      managerInv (UsbDeviceManager_AddDevice m a t e).2) ∧
    (∀ (m : Manager) (i : Nat), managerInv m →
      managerInv (UsbDeviceManager_RemoveDevice m i)) ∧
    (∀ (m : Manager) (i : Nat) (rep : List Nat) (len : Nat), managerInv m →
      managerInv (UsbDeviceManager_UpdateReport m i rep len)) ∧
    (∀ (m : Manager) (i tg : Nat), managerInv m →
      managerInv (UsbDeviceManager_UpdateSyncToggle m i tg)) ∧
    (∀ m : Manager, managerInv m → m.active ≤ 4) := by
  refine ⟨⟨rfl, rfl⟩, ?_, ?_, ?_, ?_, ?_⟩
  · intro m a t e hm
    obtain ⟨hlen, hact⟩ := hm
    have hbound : (m.devices.filter (fun d => d.is_valid)).length ≤ 4 := by
      have := List.length_filter_le (fun d => d.is_valid) m.devices
      omega
    unfold UsbDeviceManager_AddDevice
    rw [addDeviceAux_eq]
    cases hf : firstInvalidIdx m.devices with
    | none => exact ⟨hlen, hact⟩
    | some i =>
      obtain ⟨hi, hinv⟩ := firstInvalidIdx_some _ _ hf
      have hfl := filter_length_set_add m.devices i (newUsbDevice a t e)
        (fun d => d.is_valid) hi hinv rfl
      refine ⟨by simpa using hlen, ?_⟩
      show (m.active + 1) % 256
        = ((m.devices.set i (newUsbDevice a t e)).filter (fun d => d.is_valid)).length
      omega
  · intro m i hm
    obtain ⟨hlen, hact⟩ := hm
    unfold UsbDeviceManager_RemoveDevice
    by_cases h4 : i ≥ MAX_USB_DEVICES
    · rw [if_pos h4]
      exact ⟨hlen, hact⟩
    · rw [if_neg h4]
      by_cases hv : (getDev m.devices i).is_valid
      · rw [if_pos hv]
        have hi : i < m.devices.length := valid_getDev_lt_length _ _ hv
        have hfl := filter_length_set_remove m.devices i emptyDevice
          (fun d => d.is_valid) hi hv rfl
        have hpos : m.active > 0 := by omega
        refine ⟨by simpa using hlen, ?_⟩
        show (if m.active > 0 then m.active - 1 else m.active)
          = ((m.devices.set i emptyDevice).filter (fun d => d.is_valid)).length
        rw [if_pos hpos]
        omega
      · rw [if_neg hv]
        exact ⟨hlen, hact⟩
  · intro m i rep len hm
    obtain ⟨hlen, hact⟩ := hm
    unfold UsbDeviceManager_UpdateReport
    by_cases h4 : i ≥ MAX_USB_DEVICES ∨ len > 8
    · rw [if_pos h4]
      exact ⟨hlen, hact⟩
    · rw [if_neg h4]
      by_cases hv : (getDev m.devices i).is_valid
      · rw [if_pos hv]
        have hi : i < m.devices.length := valid_getDev_lt_length _ _ hv
        have hfl := filter_length_set_same m.devices i
          (updatedReportDev (getDev m.devices i) rep len)
          (fun d => d.is_valid) hi rfl
        refine ⟨by simpa using hlen, ?_⟩
        show m.active = ((m.devices.set i
          (updatedReportDev (getDev m.devices i) rep len)).filter
            (fun d => d.is_valid)).length
        omega
      · rw [if_neg hv]
        exact ⟨hlen, hact⟩
  · intro m i tg hm
    obtain ⟨hlen, hact⟩ := hm
    unfold UsbDeviceManager_UpdateSyncToggle
    by_cases h4 : i ≥ MAX_USB_DEVICES
    · rw [if_pos h4]
      exact ⟨hlen, hact⟩
    · rw [if_neg h4]
      by_cases hv : (getDev m.devices i).is_valid
      · rw [if_pos hv]
        have hi : i < m.devices.length := valid_getDev_lt_length _ _ hv
        have hfl := filter_length_set_same m.devices i
          (updatedToggleDev (getDev m.devices i) tg)
          (fun d => d.is_valid) hi rfl
        refine ⟨by simpa using hlen, ?_⟩
        show m.active = ((m.devices.set i
          (updatedToggleDev (getDev m.devices i) tg)).filter
            (fun d => d.is_valid)).length
        omega
      · rw [if_neg hv]
        exact ⟨hlen, hact⟩
  · intro m hm
    obtain ⟨hlen, hact⟩ := hm
    have := List.length_filter_le (fun d => d.is_valid) m.devices
    omega

/-- Claim C10 witness: the invariant chains through a concrete add and remove
sequence on the initial registry. -/
theorem C10_active_count_invariant_witness :
    managerInv (UsbDeviceManager_RemoveDevice
      (UsbDeviceManager_AddDevice UsbDeviceManager_Init 1 0 129).2 0) ∧
    (UsbDeviceManager_AddDevice UsbDeviceManager_Init 1 0 129).2.active ≤ 4 :=
  ⟨C10_active_count_invariant.2.2.1 _ 0
     (C10_active_count_invariant.2.1 UsbDeviceManager_Init 1 0 129
       C10_active_count_invariant.1),
   C10_active_count_invariant.2.2.2.2.2 _
     (C10_active_count_invariant.2.1 UsbDeviceManager_Init 1 0 129
       C10_active_count_invariant.1)⟩

theorem getDevice_some (m : Manager) (i : Nat) (dev : UsbDevice)
    (h : UsbDeviceManager_GetDevice m i = some dev) :
    ¬i ≥ MAX_USB_DEVICES ∧ dev = getDev m.devices i ∧
      (getDev m.devices i).is_valid = true := by
  unfold UsbDeviceManager_GetDevice at h
  by_cases h4 : i ≥ MAX_USB_DEVICES
  · rw [if_pos h4] at h
    exact absurd h (by simp)
  · rw [if_neg h4] at h
    by_cases hv : (getDev m.devices i).is_valid
    · rw [if_pos hv] at h
      refine ⟨h4, ?_, hv⟩
      injection h with h
      exact h.symm
    · rw [if_neg hv] at h
      exact absurd h (by simp)

theorem updateReport_endpoint (m : Manager) (i : Nat) (rep : List Nat)
    (len : Nat) :
    (getDev (UsbDeviceManager_UpdateReport m i rep len).devices i).endpoint
      = (getDev m.devices i).endpoint := by
  unfold UsbDeviceManager_UpdateReport
  by_cases h1 : i ≥ MAX_USB_DEVICES ∨ len > 8
  · rw [if_pos h1]
  · rw [if_neg h1]
    by_cases hv : (getDev m.devices i).is_valid
    · rw [if_pos hv]
      have hi : i < m.devices.length := valid_getDev_lt_length _ _ hv
      show (getDev (m.devices.set i (updatedReportDev (getDev m.devices i)
        rep len)) i).endpoint = _
      rw [getDev_set_self _ _ _ hi]
      rfl
    · rw [if_neg hv]

theorem setDeviceEndpoint_getDev (m : Manager) (i e : Nat)
    (hi : i < m.devices.length) :
    getDev (setDeviceEndpoint m i e).devices i
      = updatedEndpointDev (getDev m.devices i) e := by
  show getDev (m.devices.set i (updatedEndpointDev (getDev m.devices i) e)) i = _
  exact getDev_set_self _ _ _ hi

set_option maxRecDepth 4096 in
/-- Claim C8: in the per-slot transaction the slot endpoint token is toggled
(bit 7 flipped) if and only if the preceding IN transaction reported success,
and the codec functions are the pure total functions of spec section 4.1: a
toggle flips bit 7 and never changes the 7-bit address, Endpoint_SetToggle
keeps the address, and IsEndpointValid is exactly a nonzero address. -/
theorem C8_toggle_iff_success :
    (∀ e : Nat, e < 256 →
      Endpoint_GetAddr (Endpoint_SyncToggle e) = Endpoint_GetAddr e) ∧
    (∀ e : Nat, e < 256 →
      Endpoint_ToggleBitSet (Endpoint_SyncToggle e) = !Endpoint_ToggleBitSet e) ∧
    (∀ e : Nat, e < 256 → ∀ b : Nat,
      Endpoint_GetAddr (Endpoint_SetToggle e b) = Endpoint_GetAddr e) ∧
    (∀ e : Nat, IsEndpointValid e = (Endpoint_GetAddr e != 0)) ∧
    (∀ (s : Sys) (env : TickEnv) (i : Nat) (dev : UsbDevice),
      UsbDeviceManager_GetDevice s.mgr i = some dev →
      dev.is_connected = true →
      (getDev (USB_Bridge_ProcessDevice s env i).1.mgr.devices i).endpoint
        = (if env.transact_ok i then Endpoint_SyncToggle dev.endpoint
           else dev.endpoint)) := by
  refine ⟨by decide, by decide, ?_, fun e => rfl, ?_⟩
  · intro e he b
    unfold Endpoint_SetToggle
    by_cases hb : b ≠ 0
    · rw [if_pos hb]
      revert e
      decide
    · rw [if_neg hb]
      revert e
      decide
  · intro s env i dev hget hconn
    obtain ⟨h4, hdev, hval⟩ := getDevice_some _ _ _ hget
    have hvalid : dev.is_valid = true := by rw [hdev]; exact hval
    have hi : i < s.mgr.devices.length := valid_getDev_lt_length _ _ hval
    simp only [USB_Bridge_ProcessDevice, hget]
    rw [if_neg (by simp [hconn, hvalid])]
    by_cases ht : env.transact_ok i
    · rw [if_pos ht, if_pos ht]
      by_cases hlen : env.rx_len i > 0
      · rw [if_pos hlen]
        by_cases hk : dev.dev_type = DEV_TYPE_KEYBOARD
        · rw [if_pos hk]
          by_cases hsend : ¬env.kbd_send_ok
          · rw [if_pos hsend]
            show (getDev (UsbDeviceManager_UpdateReport
              (setDeviceEndpoint s.mgr i (Endpoint_SyncToggle dev.endpoint)) i
              (Parse_Keyboard_Data (env.rx_buf i) (env.rx_len i)) 8).devices
                i).endpoint = _
            rw [updateReport_endpoint, setDeviceEndpoint_getDev _ _ _ hi, ← hdev]
            rfl
          · rw [if_neg hsend]
            show (getDev (UsbDeviceManager_UpdateReport
              (setDeviceEndpoint s.mgr i (Endpoint_SyncToggle dev.endpoint)) i
              (Parse_Keyboard_Data (env.rx_buf i) (env.rx_len i)) 8).devices
                i).endpoint = _
            rw [updateReport_endpoint, setDeviceEndpoint_getDev _ _ _ hi, ← hdev]
            rfl
        · rw [if_neg hk]
          by_cases hm : dev.dev_type = DEV_TYPE_MOUSE
          · rw [if_pos hm]
            show (getDev (UsbDeviceManager_UpdateReport
              (setDeviceEndpoint s.mgr i (Endpoint_SyncToggle dev.endpoint)) i
              (decodeMouse (env.rx_buf i) (env.rx_len i)) 4).devices
                i).endpoint = _
            rw [updateReport_endpoint, setDeviceEndpoint_getDev _ _ _ hi, ← hdev]
            rfl
          · rw [if_neg hm]
            show (getDev (setDeviceEndpoint s.mgr i
              (Endpoint_SyncToggle dev.endpoint)).devices i).endpoint = _
            rw [setDeviceEndpoint_getDev _ _ _ hi, ← hdev]
            rfl
      · rw [if_neg hlen]
        show (getDev (setDeviceEndpoint s.mgr i
          (Endpoint_SyncToggle dev.endpoint)).devices i).endpoint = _
        rw [setDeviceEndpoint_getDev _ _ _ hi, ← hdev]
        rfl
    · rw [if_neg ht, if_neg ht]
      show (getDev s.mgr.devices i).endpoint = dev.endpoint
      rw [hdev]

/-- Claim C8 witness: on the registered keyboard slot, a successful transaction
toggles endpoint 0x81 to 0x01, and a failed transaction leaves it at 0x81. -/
theorem C8_toggle_iff_success_witness :
    (getDev (USB_Bridge_ProcessDevice kbdSys kbdBusyEnv 0).1.mgr.devices
      0).endpoint = Endpoint_SyncToggle 129 ∧
    (getDev (USB_Bridge_ProcessDevice kbdSys quietEnv 0).1.mgr.devices
      0).endpoint = 129 := by
  have h1 := C8_toggle_iff_success.2.2.2.2 kbdSys kbdBusyEnv 0
    (newUsbDevice 1 DEV_TYPE_KEYBOARD 129) (by decide) (by decide)
  have h2 := C8_toggle_iff_success.2.2.2.2 kbdSys quietEnv 0
    (newUsbDevice 1 DEV_TYPE_KEYBOARD 129) (by decide) (by decide)
  rw [h1, h2]
  constructor
  · rfl
  · rfl

set_option maxRecDepth 8192 in
/-- Claim C1: the pending-retry gate of USB_Bridge_Poll is real -- with the
pending flag set and the resend failing, the poll returns at once, changing no
state and performing no transport action beyond the BLE resend of the
preserved last_kbd_report.  But the flag-setting half of the claim is absent
from the code: on the concrete tick in which the keyboard BLE send fails, the
poll leaves kbd_send_pending clear (it only counts a USB comm failure), even
though the send was attempted, so the gate is unreachable.  This contradicts
the code documentation of USB_Bridge_Poll, which states that a keyboard send
failure sets kbd_send_pending for retry on the next cycle. -/
theorem C1_pending_retry_gate :
    (∀ (s : Sys) (env : TickEnv), s.kbd_send_pending = true →
      env.resend_ok = false →
      USB_Bridge_Poll s env = (s, [BridgeAction.sendKbdBle s.last_kbd_report])) ∧
    (USB_Bridge_Poll kbdSys kbdBusyEnv).1.kbd_send_pending = false ∧
    (USB_Bridge_Poll kbdSys kbdBusyEnv).1.stats.usb_comm_fail_count = 1 ∧
    (USB_Bridge_Poll kbdSys kbdBusyEnv).2 = [BridgeAction.enumHubPorts,
      BridgeAction.searchDevice DEV_TYPE_KEYBOARD,
      BridgeAction.searchDevice DEV_TYPE_MOUSE, BridgeAction.selectPort 1,
      BridgeAction.transactIn 0,
      BridgeAction.sendKbdBle [1, 0, 4, 0, 0, 0, 0, 0],
      BridgeAction.recoveryTick] := by
  refine ⟨?_, by decide, by decide, by decide⟩
  intro s env h1 h2
  unfold USB_Bridge_Poll
  rw [if_pos h1, if_neg (by simp [h2])]

set_option maxRecDepth 8192 in
/-- Claim C1 witness: the gate property applied at a concrete pending state
with a busy BLE link. -/
theorem C1_pending_retry_gate_witness :
    USB_Bridge_Poll { kbdSys with kbd_send_pending := true }
        { kbdBusyEnv with resend_ok := false }
      = ({ kbdSys with kbd_send_pending := true },
         [BridgeAction.sendKbdBle (List.replicate 8 0)]) := by
  have h := C1_pending_retry_gate.1 { kbdSys with kbd_send_pending := true }
    { kbdBusyEnv with resend_ok := false } rfl rfl
  rw [h]
  rfl

set_option maxRecDepth 8192 in
/-- Claim C4, evaluated on the claim trace: Start from idle sets
state=Waiting, delay=1000, retry=0 and logs the disconnect stat, and
Poll(1000) enters Reconnecting, exactly as claimed; but because
USBReconnect_Execute calls USB_Bridge_Init, which re-runs USBReconnect_Init
and ErrorStats_Init, every failing attempt restarts from retry=0 and ends at
retry=1 with the usb_reconnect_retry stat reset to 1.  After the third failure
the machine is in state Waiting (not Idle), both the retry counter and the
stat read 1 (not 3), and the next Poll/Execute round schedules yet another
attempt: the retry bound is never reached and the machine never gives up. -/
theorem C4_reconnect_trace_eval :
    (USBReconnect_Start sysInit).recState.usb_reconnect_state = 1 ∧
    (USBReconnect_Start sysInit).recState.usb_reconnect_delay = 1000 ∧
    (USBReconnect_Start sysInit).recState.usb_reconnect_retry = 0 ∧
    (USBReconnect_Start sysInit).stats.usb_disconnect_count = 1 ∧
    (USBReconnect_Poll (USBReconnect_Start sysInit) 1000 false
      false).recState.usb_reconnect_state = 2 ∧
    usbReconnectTrace.recState.usb_reconnect_state = 1 ∧
    usbReconnectTrace.recState.usb_reconnect_retry = 1 ∧
    usbReconnectTrace.stats.usb_reconnect_retry = 1 ∧
    (USBReconnect_Execute (USBReconnect_Poll usbReconnectTrace 2000 false
      false) false).1.recState.usb_reconnect_state = 1 := by
  decide

set_option maxRecDepth 8192 in
/-- Claim C5, evaluated on the code: ten Watchdog_Poll(1000) calls with no
external feed accumulate 10000 ms yet leave the state exactly as it began and
invoke safe recovery zero times (the accumulator is silently reset whenever it
lands on a multiple of 1000, and the threshold test is strictly greater than
10000); a single Poll(10000) likewise triggers nothing and self-feeds to 0.
Eleven Poll(999) calls do cross the threshold and invoke safe recovery exactly
once, but the watchdog-timeout statistic then reads 0, not 1, because
Watchdog_SafeRecovery runs USB_Bridge_Init, whose ErrorStats_Init wipes the
counter that was just incremented. -/
theorem C5_watchdog_eval :
    watchdogRun sysInit (List.replicate 10 1000) = (sysInit, 0) ∧
    (Watchdog_Poll sysInit 10000).2 = false ∧
    (Watchdog_Poll sysInit 10000).1.recState.watchdog_timeout = 0 ∧
    (watchdogRun sysInit (List.replicate 11 999)).2 = 1 ∧
    (watchdogRun sysInit
      (List.replicate 11 999)).1.stats.watchdog_timeout_count = 0 := by
  decide

set_option maxRecDepth 8192 in
/-- Claim C9, counterexample: a mouse BLE send that fails under backpressure
is dropped without incrementing any error-statistics counter.  On the
concrete slot transaction the mouse report is handed to the failing BLE send
(the action list shows it) and the statistics block is bit-for-bit
unchanged. -/
theorem C9_mouse_drop_uncounted_cex :
    mouseBusyEnv.mouse_send_ok = false ∧
    (USB_Bridge_ProcessDevice mouseSys mouseBusyEnv 0).2.2
      = [BridgeAction.selectPort 1, BridgeAction.transactIn 0,
         BridgeAction.sendMouseBle [10, 250, 0, 0]] ∧
    (USB_Bridge_ProcessDevice mouseSys mouseBusyEnv 0).1.stats
      = mouseSys.stats := by
  decide

/-- Claim C9 (amended): a failed keyboard BLE send in the per-slot transaction
increments the USB comm-fail counter in the same cycle, but the mouse path
never touches the error statistics, so a mouse report dropped on backpressure
is both silently dropped and uncounted. -/
theorem C9_stats_amended :
    (∀ (s : Sys) (env : TickEnv) (i : Nat) (dev : UsbDevice),
      UsbDeviceManager_GetDevice s.mgr i = some dev →
      dev.is_connected = true → dev.dev_type = DEV_TYPE_KEYBOARD →
      env.transact_ok i = true → 0 < env.rx_len i → env.kbd_send_ok = false →
      (USB_Bridge_ProcessDevice s env i).1.stats
        = ErrorStats_USBCommFail s.stats) ∧
    (∀ (s : Sys) (env : TickEnv) (i : Nat) (dev : UsbDevice),
      UsbDeviceManager_GetDevice s.mgr i = some dev →
      dev.dev_type = DEV_TYPE_MOUSE →
      (USB_Bridge_ProcessDevice s env i).1.stats = s.stats) := by
  constructor
  · intro s env i dev hget hconn hk ht hlen hsend
    obtain ⟨h4, hdev, hval⟩ := getDevice_some _ _ _ hget
    have hvalid : dev.is_valid = true := by rw [hdev]; exact hval
    simp only [USB_Bridge_ProcessDevice, hget]
    rw [if_neg (by simp [hconn, hvalid]), if_pos ht, if_pos hlen, if_pos hk,
      if_pos (by simp [hsend])]
  · intro s env i dev hget hm
    obtain ⟨h4, hdev, hval⟩ := getDevice_some _ _ _ hget
    have hvalid : dev.is_valid = true := by rw [hdev]; exact hval
    simp only [USB_Bridge_ProcessDevice, hget]
    by_cases hconn : dev.is_connected = true
    · rw [if_neg (by simp [hconn, hvalid])]
      by_cases ht : env.transact_ok i
      · rw [if_pos ht]
        by_cases hlen : env.rx_len i > 0
        · rw [if_pos hlen, if_neg (by rw [hm]; decide), if_pos hm]
        · rw [if_neg hlen]
      · rw [if_neg ht]
    · rw [if_pos (by simp [hconn])]

set_option maxRecDepth 8192 in
/-- Claim C9 witness: the amended statement applied at concrete keyboard and
mouse slot transactions. -/
theorem C9_stats_amended_witness :
    (USB_Bridge_ProcessDevice kbdSys kbdBusyEnv 0).1.stats
      = ErrorStats_USBCommFail kbdSys.stats ∧
    (USB_Bridge_ProcessDevice mouseSys mouseBusyEnv 0).1.stats
      = mouseSys.stats :=
  ⟨C9_stats_amended.1 kbdSys kbdBusyEnv 0 (newUsbDevice 1 DEV_TYPE_KEYBOARD 129)
     (by decide) (by decide) (by decide) (by decide) (by decide) (by decide),
   C9_stats_amended.2 mouseSys mouseBusyEnv 0 (newUsbDevice 1 DEV_TYPE_MOUSE 130)
     (by decide) (by decide)⟩

end UsbBridge
